import Mathlib

/-!
Verification development for the chara-weave Performance Synthesis and
Synchronization Pipeline (src/lib/types/character-types.ts).

The embedding follows the runtime behaviour of the TypeScript source.  JS
numbers appearing in the pipeline are exact decimal literals on which the
code performs no arithmetic, so they are modelled as rationals.  JS records
typed as placeholder Record types are modelled as association lists whose
values are either strings or numbers.  Methods invoked through awaited
calls are modelled in an Except-channel carrying the thrown error message.
-/

namespace CharaWeave

/-- Runtime JS value appearing in the placeholder record types of the
source: the pipeline only ever stores strings and numbers there. -/
inductive JsVal where
  | s (v : String)
  | n (v : ℚ)
  deriving DecidableEq, Repr

/-- Model of the placeholder types declared as a record of string keys and
arbitrary values. -/
abbrev RecordAny := List (String × JsVal)

/-- Model of the numeric score sub-records the validators construct
(visual_quality, emotional_consistency, and so on). -/
abbrev ScoreRecord := List (String × ℚ)

/-- GeneratedImage interface. -/
structure GeneratedImage where
  url : String
  format : String
  resolution : String
  style : String
  prompt : String
  model : String
  deriving DecidableEq, Repr

/-- GeneratedAudio interface; duration is in milliseconds. -/
structure GeneratedAudio where
  url : String
  format : String
  duration : ℚ
  model : String
  voice : String
  deriving DecidableEq, Repr

/-- GeneratedAnimation interface; duration is in milliseconds. -/
structure GeneratedAnimation where
  url : String
  format : String
  duration : ℚ
  frameRate : ℚ
  model : String
  deriving DecidableEq, Repr

/-- JointData interface. -/
structure JointData where
  name : String
  position : ℚ × ℚ × ℚ
  rotation : ℚ × ℚ × ℚ × ℚ
  deriving DecidableEq, Repr

/-- MotionData interface. -/
structure MotionData where
  joints : List JointData
  timing : List ℚ
  interpolation : String
  deriving DecidableEq, Repr

/-- Self-reported per-generator quality record (the QualityMetrics
interface declared next to the generator output types: overall, detail,
consistency, realism, artisticValue). -/
structure GenQualityMetrics where
  overall : ℚ
  detail : ℚ
  consistency : ℚ
  realism : ℚ
  artisticValue : ℚ
  deriving DecidableEq, Repr

/-- ConsistencyMetrics interface. -/
structure ConsistencyMetrics where
  facialSimilarity : ℚ
  styleSimilarity : ℚ
  colorConsistency : ℚ
  proportionConsistency : ℚ
  deriving DecidableEq, Repr

/-- VisualPerformance: the runtime shape the visual generator constructs
(images, quality, consistency).  The source also declares a second
interface of this name; the pipeline only ever builds this shape. -/
structure VisualPerformance where
  images : List GeneratedImage
  quality : GenQualityMetrics
  consistency : ConsistencyMetrics
  deriving DecidableEq, Repr

/-- AudioPerformance: the runtime shape the audio generator constructs. -/
structure AudioPerformance where
  audioFiles : List GeneratedAudio
  quality : GenQualityMetrics
  voiceConsistency : ℚ
  deriving DecidableEq, Repr

/-- AnimationPerformance: the runtime shape the animation generator
constructs. -/
structure AnimationPerformance where
  animations : List GeneratedAnimation
  motionData : List MotionData
  quality : GenQualityMetrics
  deriving DecidableEq, Repr

/-- SceneContext interface. -/
structure SceneContext where
  location : String
  timeOfDay : String
  weather : String
  mood : String
  objectives : List String
  obstacles : List String
  otherCharacters : List String
  previousEvents : List String
  deriving DecidableEq, Repr

/-- EmotionalState interface; intensity ranges over 0 to 100. -/
structure EmotionalState where
  primary : String
  secondary : List String
  intensity : ℚ
  triggers : List String
  physicalManifestations : List String
  deriving DecidableEq, Repr

/-- PhysicalState interface. -/
structure PhysicalState where
  posture : String
  gestures : List String
  facialExpression : String
  eyeContact : String
  movement : String
  breathing : String
  deriving DecidableEq, Repr

/-- ActionInstruction interface; the string-literal union on the type
field is modelled as a plain string, as it is at runtime. -/
structure ActionInstruction where
  type : String
  description : String
  timing : String
  intensity : ℚ
  purpose : String
  deriving DecidableEq, Repr

/-- DialogueInstruction interface. -/
structure DialogueInstruction where
  text : String
  tone : String
  pace : String
  volume : String
  emphasis : List String
  subtext : String
  deriving DecidableEq, Repr

/-- VisualInstruction interface. -/
structure VisualInstruction where
  type : String
  parameters : RecordAny
  priority : ℚ
  deriving DecidableEq, Repr

/-- AudioInstruction interface. -/
structure AudioInstruction where
  type : String
  parameters : RecordAny
  timing : ℚ
  deriving DecidableEq, Repr

/-- PerformanceInstructionSet interface: one synthesis request. -/
structure PerformanceInstructionSet where
  characterId : String
  sceneContext : SceneContext
  emotionalState : EmotionalState
  physicalState : PhysicalState
  motivations : List String
  objectives : List String
  actions : List ActionInstruction
  dialogue : List DialogueInstruction
  visualInstructions : List VisualInstruction
  audioInstructions : List AudioInstruction
  deriving DecidableEq, Repr

/-- SyncPoint interface; timestamp is in milliseconds. -/
structure SyncPoint where
  timestamp : ℚ
  visual_event : RecordAny
  audio_event : RecordAny
  animation_event : RecordAny
  synchronization_quality : ℚ
  alignment_accuracy : ℚ
  deriving DecidableEq, Repr

/-- SynchronizationData interface. -/
structure SynchronizationData where
  sync_points : List SyncPoint
  timing_alignment : RecordAny
  emotional_alignment : RecordAny
  performance_alignment : RecordAny
  quality_alignment : RecordAny
  consistency_alignment : RecordAny
  deriving DecidableEq, Repr

/-- QualityMetrics interface: the validator scorecard (visual_quality and
friends plus the aggregate overall_quality and performance_quality). -/
structure QualityMetrics where
  visual_quality : ScoreRecord
  audio_quality : ScoreRecord
  animation_quality : ScoreRecord
  synchronization_quality : ScoreRecord
  overall_quality : ℚ
  performance_quality : ℚ
  deriving DecidableEq, Repr

/-- ConsistencyCheck interface: the consistency scorecard. -/
structure ConsistencyCheck where
  character_consistency : ScoreRecord
  emotional_consistency : ScoreRecord
  performance_consistency : ScoreRecord
  visual_consistency : ScoreRecord
  audio_consistency : ScoreRecord
  animation_consistency : ScoreRecord
  overall_consistency : ℚ
  deriving DecidableEq, Repr

/-- Runtime shape of the metadata object built by the private method
generatePerformanceMetadata (snake_case fields, cast in the source). -/
structure FinalPerfMetadata where
  generation_time : ℕ
  quality_score : ℚ
  consistency_score : ℚ
  models_used : List String
  deriving DecidableEq, Repr

/-- QualityReport runtime shape built by generateQualityReport. -/
structure QualityReport where
  overall_score : ℚ
  recommendations : List String
  metrics : QualityMetrics
  deriving DecidableEq, Repr

/-- ConsistencyReport runtime shape built by generateConsistencyReport. -/
structure ConsistencyReport where
  overall_score : ℚ
  recommendations : List String
  metrics : ConsistencyCheck
  deriving DecidableEq, Repr

/-- FinalPerformance interface: video, audio and animation output records
plus metadata and the two reports. -/
structure FinalPerformance where
  video : RecordAny
  audio : RecordAny
  animation : RecordAny
  metadata : FinalPerfMetadata
  quality_report : QualityReport
  consistency_report : ConsistencyReport
  deriving DecidableEq, Repr

/-- SynchronizedPerformance interface.  The mock synchronization engine
stores an empty object cast to FinalPerformance in final_output; that
absent value is modelled as none. -/
structure SynchronizedPerformance where
  visual : VisualPerformance
  audio : AudioPerformance
  animation : AnimationPerformance
  synchronization : SynchronizationData
  quality_metrics : QualityMetrics
  consistency_check : ConsistencyCheck
  final_output : Option FinalPerformance
  deriving DecidableEq, Repr

/-- PerformanceMetadata interface (camelCase fields, used by the object
synthesizePerformance returns). -/
structure PerformanceMetadata where
  generationTime : ℕ
  modelUsed : String
  qualityScore : ℚ
  consistencyScore : ℚ
  cost : ℚ
  version : String
  deriving DecidableEq, Repr

/-- SynthesizedPerformance interface: the value synthesizePerformance
resolves with.  The Date timestamp is modelled as milliseconds. -/
structure SynthesizedPerformance where
  characterId : String
  timestamp : ℕ
  visual : VisualPerformance
  audio : AudioPerformance
  animation : AnimationPerformance
  metadata : PerformanceMetadata
  deriving DecidableEq, Repr

/-- CharacterAppearance interface; all sub-models are placeholder
records. -/
structure CharacterAppearance where
  face : RecordAny
  body : RecordAny
  clothing : RecordAny
  accessories : List RecordAny
  hair : RecordAny
  skin : RecordAny
  eyes : RecordAny
  mouth : RecordAny
  nose : RecordAny
  overall_style : RecordAny
  deriving DecidableEq, Repr

/-- CharacterVoice interface. -/
structure CharacterVoice where
  timbre : String
  pitch : ℚ
  tempo : ℚ
  accent : String
  speech_patterns : List String
  vocal_habits : List String
  emotional_range : RecordAny
  age_characteristics : RecordAny
  gender_characteristics : RecordAny
  deriving DecidableEq, Repr

/-- CharacterAnimation interface. -/
structure CharacterAnimation where
  base_pose : RecordAny
  movement_style : RecordAny
  gesture_library : RecordAny
  facial_expressions : RecordAny
  body_language : RecordAny
  walking_style : RecordAny
  sitting_style : RecordAny
  standing_style : RecordAny
  emotional_animation : RecordAny
  deriving DecidableEq, Repr

/-- CharacterModel interface. -/
structure CharacterModel where
  baseAppearance : CharacterAppearance
  baseVoice : CharacterVoice
  baseAnimation : CharacterAnimation
  emotionalModifications : RecordAny
  performanceModifications : RecordAny
  consistencyParameters : RecordAny
  deriving DecidableEq, Repr

/-- Voice identity block of the character ontology. -/
structure VoiceIdentity where
  voiceType : String
  pitch : String
  pace : String
  accent : String
  emotionalRange : List String
  speechPatterns : List String
  voiceDNA : String
  deriving DecidableEq, Repr

/-- UnifiedCharacterOntology, restricted to the fields the synthesizer
core actually reads.  The source reads voiceIdentity through optional
chaining, so that block is modelled as optional; the remaining declared
blocks (psychological profile, backstory, and so on) are never touched by
the pipeline and are omitted. -/
structure UnifiedCharacterOntology where
  id : String
  version : String
  voiceIdentity : Option VoiceIdentity
  deriving DecidableEq, Repr

/-- MultimodalPerformanceSynthesizerCore state: the public fields of the
class.  The generator and engine collaborators are modelled by the single
method of each interface the pipeline invokes, in an error channel
carrying the message a throwing implementation would reject with. -/
structure MultimodalPerformanceSynthesizerCore where
  characterModel : CharacterModel
  visualGenerator : PerformanceInstructionSet → Except String VisualPerformance
  audioGenerator : PerformanceInstructionSet → Except String AudioPerformance
  animationGenerator : PerformanceInstructionSet → Except String AnimationPerformance
  synchronizationEngine :
    VisualPerformance → AudioPerformance → AnimationPerformance →
      Except String SynchronizedPerformance
  qualityAssurance : ScoreRecord
  consistencyEngine : RecordAny

/-- extractBaseAppearance: returns an all-empty appearance record. -/
def extractBaseAppearance (_ontology : UnifiedCharacterOntology) : CharacterAppearance :=
  { face := [], body := [], clothing := [], accessories := [], hair := []
    skin := [], eyes := [], mouth := [], nose := [], overall_style := [] }

/-- extractBaseVoice: reads the ontology voice identity through optional
chaining with JS falsy defaults.  A missing block or an empty voiceType
or accent string falls back to the string neutral; an empty speech
pattern array is truthy in JS, so it is kept as is. -/
def extractBaseVoice (ontology : UnifiedCharacterOntology) : CharacterVoice :=
  { timbre :=
      match ontology.voiceIdentity with
      | none => "neutral"
      | some v => if v.voiceType = "" then "neutral" else v.voiceType
    pitch := 0.5
    tempo := 0.5
    accent :=
      match ontology.voiceIdentity with
      | none => "neutral"
      | some v => if v.accent = "" then "neutral" else v.accent
    speech_patterns :=
      match ontology.voiceIdentity with
      | none => []
      | some v => v.speechPatterns
    vocal_habits := []
    emotional_range := []
    age_characteristics := []
    gender_characteristics := [] }

/-- extractBaseAnimation: returns an all-empty animation record. -/
def extractBaseAnimation (_ontology : UnifiedCharacterOntology) : CharacterAnimation :=
  { base_pose := [], movement_style := [], gesture_library := []
    facial_expressions := [], body_language := [], walking_style := []
    sitting_style := [], standing_style := [], emotional_animation := [] }

/-- initializeCharacterModel. -/
def initCharacterModel (ontology : UnifiedCharacterOntology) : CharacterModel :=
  { baseAppearance := extractBaseAppearance ontology
    baseVoice := extractBaseVoice ontology
    baseAnimation := extractBaseAnimation ontology
    emotionalModifications := []
    performanceModifications := []
    consistencyParameters := [] }

/-- Fixed mock visual performance: the literal returned by the
generateVisualPerformance method of the anonymous class built in
initializeVisualGenerator. -/
def mockVisualPerformance : VisualPerformance :=
  { images :=
      [{ url := "", format := "png", resolution := "2048x2048"
         style := "realistic", prompt := "", model := "flux-pro" }]
    quality :=
      { overall := 0.96, detail := 0.95, consistency := 0.94
        realism := 0.97, artisticValue := 0.93 }
    consistency :=
      { facialSimilarity := 0.95, styleSimilarity := 0.93
        colorConsistency := 0.94, proportionConsistency := 0.96 } }

/-- initializeVisualGenerator: the anonymous class whose
generateVisualPerformance method ignores its instructions and returns the
fixed mock performance. -/
def initVisualGenerator (_ontology : UnifiedCharacterOntology) :
    PerformanceInstructionSet → Except String VisualPerformance :=
  fun _instructions => .ok mockVisualPerformance

/-- Fixed mock audio performance returned by the anonymous audio
generator. -/
def mockAudioPerformance : AudioPerformance :=
  { audioFiles :=
      [{ url := "", format := "wav", duration := 0
         model := "elevenlabs-v2", voice := "default" }]
    quality :=
      { overall := 0.94, detail := 0.93, consistency := 0.92
        realism := 0.95, artisticValue := 0.91 }
    voiceConsistency := 0.93 }

/-- initializeAudioGenerator: anonymous class returning the fixed mock
audio performance. -/
def initAudioGenerator (_ontology : UnifiedCharacterOntology) :
    PerformanceInstructionSet → Except String AudioPerformance :=
  fun _instructions => .ok mockAudioPerformance

/-- Fixed mock animation performance returned by the anonymous animation
generator. -/
def mockAnimationPerformance : AnimationPerformance :=
  { animations :=
      [{ url := "", format := "mp4", duration := 0
         frameRate := 60, model := "runwayml-gen3" }]
    motionData := [{ joints := [], timing := [], interpolation := "linear" }]
    quality :=
      { overall := 0.92, detail := 0.91, consistency := 0.90
        realism := 0.93, artisticValue := 0.89 } }

/-- initializeAnimationGenerator: anonymous class returning the fixed
mock animation performance. -/
def initAnimationGenerator (_ontology : UnifiedCharacterOntology) :
    PerformanceInstructionSet → Except String AnimationPerformance :=
  fun _instructions => .ok mockAnimationPerformance

/-- synchronizeOutputs method of the anonymous SynchronizationEngine
built by initializeSynchronizationEngine: passes the three inputs through
unchanged, attaches empty synchronization data (no sync points) and fixed
quality and consistency records, and never throws. -/
def synchronizeOutputs (visual : VisualPerformance) (audio : AudioPerformance)
    (animation : AnimationPerformance) : Except String SynchronizedPerformance :=
  .ok
    { visual := visual
      audio := audio
      animation := animation
      synchronization :=
        { sync_points := [], timing_alignment := [], emotional_alignment := []
          performance_alignment := [], quality_alignment := []
          consistency_alignment := [] }
      quality_metrics :=
        { visual_quality := [], audio_quality := [], animation_quality := []
          synchronization_quality := [], overall_quality := 0.93
          performance_quality := 0.94 }
      consistency_check :=
        { character_consistency := [], emotional_consistency := []
          performance_consistency := [], visual_consistency := []
          audio_consistency := [], animation_consistency := []
          overall_consistency := 0.91 }
      final_output := none }

/-- validateQuality private method: returns a fixed scorecard regardless
of the synchronized performance. -/
def validateQuality (_synchronized : SynchronizedPerformance) : QualityMetrics :=
  { visual_quality := [("overall", 0.96), ("detail", 0.95), ("consistency", 0.94)]
    audio_quality := [("overall", 0.94), ("clarity", 0.95), ("consistency", 0.93)]
    animation_quality := [("overall", 0.92), ("fluidity", 0.91), ("consistency", 0.90)]
    synchronization_quality := [("overall", 0.90), ("timing", 0.89), ("alignment", 0.91)]
    overall_quality := 0.93
    performance_quality := 0.94 }

/-- validateConsistency private method: returns a fixed scorecard
regardless of the synchronized performance. -/
def validateConsistency (_synchronized : SynchronizedPerformance) : ConsistencyCheck :=
  { character_consistency := [("visual", 0.95), ("audio", 0.93), ("animation", 0.91)]
    emotional_consistency := [("cross_modal", 0.92), ("temporal", 0.90)]
    performance_consistency := [("behavioral", 0.89), ("psychological", 0.91)]
    visual_consistency := [("appearance", 0.95), ("style", 0.93)]
    audio_consistency := [("voice", 0.94), ("speech", 0.92)]
    animation_consistency := [("movement", 0.90), ("expression", 0.88)]
    overall_consistency := 0.91 }

/-- generateVideoOutput private method. -/
def generateVideoOutput (_synchronized : SynchronizedPerformance) : RecordAny :=
  [("format", .s "mp4"), ("quality", .s "high"), ("duration", .n 0)]

/-- generateAudioOutput private method. -/
def generateAudioOutput (_synchronized : SynchronizedPerformance) : RecordAny :=
  [("format", .s "wav"), ("quality", .s "high"), ("duration", .n 0)]

/-- generateAnimationOutput private method. -/
def generateAnimationOutput (_synchronized : SynchronizedPerformance) : RecordAny :=
  [("format", .s "fbx"), ("quality", .s "high"), ("duration", .n 0)]

/-- generatePerformanceMetadata private method; the Date.now call is
modelled by the explicit now parameter. -/
def generatePerformanceMetadata (_synchronized : SynchronizedPerformance)
    (qualityCheck : QualityMetrics) (consistencyCheck : ConsistencyCheck)
    (now : ℕ) : FinalPerfMetadata :=
  { generation_time := now
    quality_score := qualityCheck.overall_quality
    consistency_score := consistencyCheck.overall_consistency
    models_used := ["flux-pro", "elevenlabs-v2", "runwayml-gen3"] }

/-- generateQualityReport private method. -/
def generateQualityReport (qualityCheck : QualityMetrics) : QualityReport :=
  { overall_score := qualityCheck.overall_quality
    recommendations :=
      ["Optimize lighting for better visual quality",
       "Improve audio clarity in noisy sections"]
    metrics := qualityCheck }

/-- generateConsistencyReport private method. -/
def generateConsistencyReport (consistencyCheck : ConsistencyCheck) : ConsistencyReport :=
  { overall_score := consistencyCheck.overall_consistency
    recommendations :=
      ["Maintain character appearance consistency",
       "Improve emotional alignment across modalities"]
    metrics := consistencyCheck }

/-- generateFinalPerformance private method. -/
def generateFinalPerformance (synchronized : SynchronizedPerformance)
    (qualityCheck : QualityMetrics) (consistencyCheck : ConsistencyCheck)
    (now : ℕ) : FinalPerformance :=
  { video := generateVideoOutput synchronized
    audio := generateAudioOutput synchronized
    animation := generateAnimationOutput synchronized
    metadata := generatePerformanceMetadata synchronized qualityCheck consistencyCheck now
    quality_report := generateQualityReport qualityCheck
    consistency_report := generateConsistencyReport consistencyCheck }

/-- generateVisualPerformance private wrapper method. -/
def generateVisualPerformance (self : MultimodalPerformanceSynthesizerCore)
    (instructions : PerformanceInstructionSet) : Except String VisualPerformance :=
  self.visualGenerator instructions

/-- generateAudioPerformance private wrapper method. -/
def generateAudioPerformance (self : MultimodalPerformanceSynthesizerCore)
    (instructions : PerformanceInstructionSet) : Except String AudioPerformance :=
  self.audioGenerator instructions

/-- generateAnimationPerformance private wrapper method. -/
def generateAnimationPerformance (self : MultimodalPerformanceSynthesizerCore)
    (instructions : PerformanceInstructionSet) : Except String AnimationPerformance :=
  self.animationGenerator instructions

/-- synthesizePerformance: the main pipeline.  Phase 1 awaits the three
generator calls (Promise.all modelled as sequential binds whose first
error wins), phase 2 awaits the synchronization engine, phase 3 runs the
two constant validators, phase 4 builds a FinalPerformance whose value the
source then discards, and the returned object is assembled from the raw
generator outputs.  The catch block wraps any thrown error into the
Performance synthesis failed message.  The new Date and Date.now calls
are modelled by the explicit now parameter. -/
def synthesizePerformance (self : MultimodalPerformanceSynthesizerCore)
    (now : ℕ) (instructions : PerformanceInstructionSet) :
    Except String SynthesizedPerformance :=
  let attempt : Except String SynthesizedPerformance :=
    match generateVisualPerformance self instructions with
    | .error e => .error e
    | .ok visualOutput =>
      match generateAudioPerformance self instructions with
      | .error e => .error e
      | .ok audioOutput =>
        match generateAnimationPerformance self instructions with
        | .error e => .error e
        | .ok animationOutput =>
          match self.synchronizationEngine visualOutput audioOutput animationOutput with
          | .error e => .error e
          | .ok synchronizedOutput =>
            let qualityCheck := validateQuality synchronizedOutput
            let consistencyCheck := validateConsistency synchronizedOutput
            let _finalPerformance :=
              generateFinalPerformance synchronizedOutput qualityCheck consistencyCheck now
            .ok
              { characterId := "temp-id"
                timestamp := now
                visual := visualOutput
                audio := audioOutput
                animation := animationOutput
                metadata :=
                  { generationTime := now
                    modelUsed := "multimodal-v1"
                    qualityScore := qualityCheck.overall_quality
                    consistencyScore := consistencyCheck.overall_consistency
                    cost := 0.05
                    version := "1.0.0" } }
  match attempt with
  | .ok result => .ok result
  | .error e => .error ("Performance synthesis failed: " ++ e)

/-- initializeQualityAssurance: returns an empty record. -/
def initQualityAssurance : ScoreRecord := []

/-- initializeConsistencyEngine: returns an empty record. -/
def initConsistencyEngine : RecordAny := []

/-- Constructor of MultimodalPerformanceSynthesizerCore: installs the
character model and the anonymous generator and engine implementations.
It takes no configuration beyond the ontology and cannot fail. -/
def mkSynthesizerCore (characterOntology : UnifiedCharacterOntology) :
    MultimodalPerformanceSynthesizerCore :=
  { characterModel := initCharacterModel characterOntology
    visualGenerator := initVisualGenerator characterOntology
    audioGenerator := initAudioGenerator characterOntology
    animationGenerator := initAnimationGenerator characterOntology
    synchronizationEngine := synchronizeOutputs
    qualityAssurance := initQualityAssurance
    consistencyEngine := initConsistencyEngine }

/-- createMultimodalPerformanceSynthesizer factory function. -/
def createMultimodalPerformanceSynthesizer
    (characterOntology : UnifiedCharacterOntology) :
    MultimodalPerformanceSynthesizerCore :=
  mkSynthesizerCore characterOntology

/-! Statement helpers and concrete sample inputs used by the theorems. -/

/-- Truth value of an Except computation having succeeded. -/
def exceptIsOk {α : Type} : Except String α → Bool
  | .ok _ => true
  | .error _ => false

/-- Modelled from the spec: the duration attribute of a visual modality
performance.  The generated images the source stores carry no duration
field, so the visual duration is 0. -/
def visualDurationMs (_v : VisualPerformance) : ℚ := 0

/-- Modelled from the spec: the duration attribute of an audio modality
performance, as the total duration of its generated audio files. -/
def audioDurationMs (a : AudioPerformance) : ℚ :=
  (a.audioFiles.map (fun f => f.duration)).sum

/-- Modelled from the spec: the duration attribute of an animation
modality performance, as the total duration of its generated clips. -/
def animationDurationMs (an : AnimationPerformance) : ℚ :=
  (an.animations.map (fun f => f.duration)).sum

/-- Sum of the weights held in a weight-configuration record. -/
def weightSum (w : ScoreRecord) : ℚ :=
  (w.map Prod.snd).sum

/-- Concrete sample ontology. -/
def sampleOntology : UnifiedCharacterOntology :=
  { id := "char-001", version := "1.0", voiceIdentity := none }

/-- Concrete sample instruction set whose characterId does not reference
sampleOntology and whose requested emotional intensity is 40. -/
def sampleInstructions : PerformanceInstructionSet :=
  { characterId := "char-999"
    sceneContext :=
      { location := "stage", timeOfDay := "night", weather := "clear"
        mood := "tense", objectives := [], obstacles := []
        otherCharacters := [], previousEvents := [] }
    emotionalState :=
      { primary := "joy", secondary := [], intensity := 40
        triggers := [], physicalManifestations := [] }
    physicalState :=
      { posture := "upright", gestures := [], facialExpression := "smile"
        eyeContact := "direct", movement := "still", breathing := "steady" }
    motivations := []
    objectives := []
    actions := []
    dialogue := []
    visualInstructions := []
    audioInstructions := [] }

/-- Concrete sample visual performance with no rendered images. -/
def sampleVisual : VisualPerformance :=
  { images := []
    quality :=
      { overall := 0.5, detail := 0.5, consistency := 0.5
        realism := 0.5, artisticValue := 0.5 }
    consistency :=
      { facialSimilarity := 0.5, styleSimilarity := 0.5
        colorConsistency := 0.5, proportionConsistency := 0.5 } }

/-- Concrete sample audio performance with a single file of the given
duration in milliseconds. -/
def sampleAudio (d : ℚ) : AudioPerformance :=
  { audioFiles :=
      [{ url := "", format := "wav", duration := d
         model := "elevenlabs-v2", voice := "default" }]
    quality :=
      { overall := 0.5, detail := 0.5, consistency := 0.5
        realism := 0.5, artisticValue := 0.5 }
    voiceConsistency := 0.5 }

/-- Concrete sample animation performance with a single clip of the given
duration in milliseconds. -/
def sampleAnimation (d : ℚ) : AnimationPerformance :=
  { animations :=
      [{ url := "", format := "mp4", duration := d
         frameRate := 30, model := "runwayml-gen3" }]
    motionData := []
    quality :=
      { overall := 0.5, detail := 0.5, consistency := 0.5
        realism := 0.5, artisticValue := 0.5 } }

/-- Concrete synchronized performance whose aggregate quality score is
0.70, below the spec-default 0.75 minimum threshold. -/
def sampleSynchronized : SynchronizedPerformance :=
  { visual := sampleVisual
    audio := sampleAudio 1000
    animation := sampleAnimation 1000
    synchronization :=
      { sync_points := [], timing_alignment := [], emotional_alignment := []
        performance_alignment := [], quality_alignment := []
        consistency_alignment := [] }
    quality_metrics :=
      { visual_quality := [], audio_quality := [], animation_quality := []
        synchronization_quality := [], overall_quality := 0.70
        performance_quality := 0.70 }
    consistency_check :=
      { character_consistency := [], emotional_consistency := []
        performance_consistency := [], visual_consistency := []
        audio_consistency := [], animation_consistency := []
        overall_consistency := 0.70 }
    final_output := none }

/-- A second, different concrete synchronized performance, used to test
input independence of the validators. -/
def sampleSynchronizedB : SynchronizedPerformance :=
  { visual := mockVisualPerformance
    audio := sampleAudio 2000
    animation := sampleAnimation 2400
    synchronization :=
      { sync_points := [], timing_alignment := [], emotional_alignment := []
        performance_alignment := [], quality_alignment := []
        consistency_alignment := [] }
    quality_metrics :=
      { visual_quality := [], audio_quality := [], animation_quality := []
        synchronization_quality := [], overall_quality := 0.99
        performance_quality := 0.99 }
    consistency_check :=
      { character_consistency := [], emotional_consistency := []
        performance_consistency := [], visual_consistency := []
        audio_consistency := [], animation_consistency := []
        overall_consistency := 0.99 }
    final_output := none }

/-- Synthesizer state reachable through the public mutable fields of the
class: the constructed core with a synchronization engine whose result
carries the 0.70 aggregate quality score. -/
def lowQualityCore : MultimodalPerformanceSynthesizerCore :=
  { mkSynthesizerCore sampleOntology with
      synchronizationEngine := fun _ _ _ => .ok sampleSynchronized }

/-! Claim theorems. -/

/-- C1 counterexample: a synchronized performance carrying the aggregate
quality score 0.70, below the spec-default minimum threshold 0.75, still
leads synthesizePerformance to return a SynthesizedPerformance result
rather than any QualityGateFailed error, on a synthesizer state reachable
through the public synchronizationEngine field. -/
theorem synthesizePerformance_quality_gate_cex :
    sampleSynchronized.quality_metrics.overall_quality = 0.70
    ∧ ((0.70 : ℚ) < 0.75)
    ∧ exceptIsOk (synthesizePerformance lowQualityCore 0 sampleInstructions) = true :=
  ⟨rfl, by norm_num, rfl⟩

/-- C1 amended: synthesizePerformance applies no quality gate at all: the
validators ignore the synchronized performance, and every successful run
reports the constant quality score 0.93 and consistency score 0.91 in its
metadata, whatever the aggregate quality of the synchronized output. -/
theorem synthesizePerformance_no_quality_gate :
    ∀ (s : MultimodalPerformanceSynthesizerCore) (now : ℕ)
      (instructions : PerformanceInstructionSet),
      (synthesizePerformance s now instructions).map
          (fun r => (r.metadata.qualityScore, r.metadata.consistencyScore))
        = (synthesizePerformance s now instructions).map
            (fun _ => ((0.93 : ℚ), (0.91 : ℚ))) := by
  intro s now instructions
  unfold synthesizePerformance generateVisualPerformance generateAudioPerformance
    generateAnimationPerformance
  cases s.visualGenerator instructions with
  | error e => rfl
  | ok v =>
    cases s.audioGenerator instructions with
    | error e => rfl
    | ok a =>
      cases s.animationGenerator instructions with
      | error e => rfl
      | ok an =>
        dsimp only
        cases s.synchronizationEngine v a an with
        | error e => rfl
        | ok sp => rfl

/-- C2 counterexample: the constructed synthesizer completes a run
successfully, yet the synchronization stage of that run, applied to the
very generator outputs the run produced, yields an empty sync_points
list, refuting non-emptiness. -/
theorem syncPoints_nonempty_cex :
    exceptIsOk (synthesizePerformance (createMultimodalPerformanceSynthesizer sampleOntology)
        0 sampleInstructions) = true
    ∧ (createMultimodalPerformanceSynthesizer sampleOntology).visualGenerator sampleInstructions
        = .ok mockVisualPerformance
    ∧ (createMultimodalPerformanceSynthesizer sampleOntology).audioGenerator sampleInstructions
        = .ok mockAudioPerformance
    ∧ (createMultimodalPerformanceSynthesizer sampleOntology).animationGenerator sampleInstructions
        = .ok mockAnimationPerformance
    ∧ (synchronizeOutputs mockVisualPerformance mockAudioPerformance mockAnimationPerformance).map
        (fun sp => sp.synchronization.sync_points) = .ok [] :=
  ⟨rfl, rfl, rfl, rfl, rfl⟩

/-- C2 amended: the synchronization engine always attaches an empty
sync_points list, for every triple of modality performances; strict
monotonicity of timestamps therefore holds only vacuously and the
non-emptiness half of the claim fails. -/
theorem syncPoints_always_empty :
    ∀ (v : VisualPerformance) (a : AudioPerformance) (an : AnimationPerformance),
      (synchronizeOutputs v a an).map (fun sp => sp.synchronization.sync_points)
        = .ok [] :=
  fun _ _ _ => rfl

/-- C3 counterexample: with an animation duration of 1200 ms, exactly
1.2 times the 1000 ms maximum of the other two modality durations (a 20
percent divergence exceeding the 15 percent default tolerance), the
synchronization still succeeds instead of failing with a
SynchronizationError. -/
theorem synchronizeOutputs_tolerance_cex :
    animationDurationMs (sampleAnimation 1200)
        = (1.2 : ℚ) * max (visualDurationMs sampleVisual) (audioDurationMs (sampleAudio 1000))
    ∧ exceptIsOk (synchronizeOutputs sampleVisual (sampleAudio 1000) (sampleAnimation 1200)) = true := by
  constructor
  · simp [animationDurationMs, sampleAnimation, visualDurationMs, audioDurationMs, sampleAudio]
    norm_num
  · rfl

/-- C3 amended: synchronizeOutputs never fails, whatever the modality
durations: the duration-divergence tolerance check is not implemented, so
the 1.10 times case succeeds and so does the 1.20 times case. -/
theorem synchronizeOutputs_never_fails :
    ∀ (v : VisualPerformance) (a : AudioPerformance) (an : AnimationPerformance),
      exceptIsOk (synchronizeOutputs v a an) = true :=
  fun _ _ _ => rfl

/-- C4 counterexample: an instruction set whose characterId does not
reference the ontology the synthesizer was constructed from is still
processed successfully; no MismatchedCharacter error is produced. -/
theorem synthesizePerformance_mismatched_character_cex :
    sampleInstructions.characterId ≠ sampleOntology.id
    ∧ exceptIsOk (synthesizePerformance (createMultimodalPerformanceSynthesizer sampleOntology)
        0 sampleInstructions) = true :=
  ⟨by decide, rfl⟩

/-- C4 amended: synthesizePerformance performs no characterId validation:
for every ontology and every instruction set the constructed synthesizer
returns a performance whose characterId is the hardcoded string temp-id,
never a MismatchedCharacter failure. -/
theorem synthesizePerformance_no_character_check :
    ∀ (ontology : UnifiedCharacterOntology) (now : ℕ)
      (instructions : PerformanceInstructionSet),
      (synthesizePerformance (createMultimodalPerformanceSynthesizer ontology)
          now instructions).map (fun r => r.characterId)
        = .ok ("temp-id") :=
  fun _ _ _ => rfl

/-- C5 confirmed: validateQuality and validateConsistency are pure
functions of their argument, so calling either twice on the same
synchronized performance yields identical scorecards. -/
theorem validators_idempotent :
    ∀ sp : SynchronizedPerformance,
      validateQuality sp = validateQuality sp
      ∧ validateConsistency sp = validateConsistency sp :=
  fun _ => ⟨rfl, rfl⟩

/-- C6 counterexample: with requested emotional intensity 40 and a
performance reporting intensity 40, the spec formula gives 1, but the
validator scores cross_modal as the constant 0.92. -/
theorem crossModal_formula_cex :
    (validateConsistency sampleSynchronized).emotional_consistency.lookup ("cross_modal")
        = some 0.92
    ∧ sampleInstructions.emotionalState.intensity = 40
    ∧ ((0.92 : ℚ) ≠ 1 - |(40 : ℚ) - 40| / 100) :=
  ⟨rfl, rfl, by norm_num⟩

/-- C6 amended: the emotional_consistency record is the constant list
with cross_modal 0.92 and temporal 0.90, independent of the requested
intensity: validateConsistency does not even receive the instruction
set. -/
theorem crossModal_constant :
    ∀ sp : SynchronizedPerformance,
      (validateConsistency sp).emotional_consistency
        = [("cross_modal", 0.92), ("temporal", 0.90)] :=
  fun _ => rfl

/-- C7 counterexample: the constructed synthesizer has the empty
quality-weight configuration, whose weights sum to 0 rather than 1.0,
yet construction succeeds and a synthesis request is accepted and
completes: no ConfigurationError is raised at setup time. -/
theorem constructor_weight_validation_cex :
    weightSum (createMultimodalPerformanceSynthesizer sampleOntology).qualityAssurance = 0
    ∧ ((0 : ℚ) ≠ 1)
    ∧ exceptIsOk (synthesizePerformance (createMultimodalPerformanceSynthesizer sampleOntology)
        0 sampleInstructions) = true :=
  ⟨rfl, by norm_num, rfl⟩

/-- C7 amended: the constructor accepts no weight configuration and
cannot fail: for every ontology it installs the empty qualityAssurance
record, whose weight sum is 0, and synthesis requests are accepted
regardless. -/
theorem constructor_no_weight_validation :
    ∀ (ontology : UnifiedCharacterOntology) (now : ℕ)
      (instructions : PerformanceInstructionSet),
      (createMultimodalPerformanceSynthesizer ontology).qualityAssurance = []
      ∧ weightSum (createMultimodalPerformanceSynthesizer ontology).qualityAssurance = 0
      ∧ exceptIsOk (synthesizePerformance (createMultimodalPerformanceSynthesizer ontology)
          now instructions) = true :=
  fun _ _ _ => ⟨rfl, rfl, rfl⟩

/-- C9 confirmed: synchronizeOutputs stores the three input modality
performances unchanged in the visual, audio and animation fields of its
result; the synchronization step performs no time-warp or modification of
the modality outputs. -/
theorem synchronizeOutputs_preserves_modalities :
    ∀ (v : VisualPerformance) (a : AudioPerformance) (an : AnimationPerformance),
      (synchronizeOutputs v a an).map (fun sp => (sp.visual, sp.audio, sp.animation))
        = .ok (v, a, an) :=
  fun _ _ _ => rfl

/-- C10 confirmed: the validators are constant functions: any two
synchronized performances, including the two distinct samples, receive
the same quality scorecard with overall_quality 0.93 and the same
consistency scorecard with overall_consistency 0.91. -/
theorem validators_input_independent :
    (∀ sp1 sp2 : SynchronizedPerformance,
      validateQuality sp1 = validateQuality sp2
      ∧ (validateQuality sp1).overall_quality = 0.93
      ∧ validateConsistency sp1 = validateConsistency sp2
      ∧ (validateConsistency sp1).overall_consistency = 0.91)
    ∧ sampleSynchronized ≠ sampleSynchronizedB :=
  ⟨fun _ _ => ⟨rfl, rfl, rfl, rfl⟩, by decide⟩

end CharaWeave
